import Mathlib

/-!
Verification of the core logic of `src/chat.py`, a writing-tutor chat
application.  The two operations under study are `evaluate_writing`
(rubric scoring with a bounded retry loop around an external model call)
and `have_conversation` (single model call over an assembled transcript).

The external model client (`model.generate_content` plus the `.text`
accessor) is an opaque collaborator: each invocation either raises or
yields a reply string.  It is embedded as an oracle argument
(`calls : String → Nat → CallResult`, keyed by the prompt and the attempt
index).  `json.loads` from the Python standard library is likewise an
external dependency and is embedded as an oracle
(`loads : String → Option PyVal`): `none` models `json.JSONDecodeError`,
`some v` a successfully decoded Python value.  Everything else —
whitespace stripping, code-fence removal via fixed-offset slicing, key
membership, `int()` / `str()` conversion, score clamping, the retry
ladder, the transcript assembler — is translated directly from the
source.  Sleeps (`time.sleep`) have no observable effect in a shallow
embedding beyond their occurrence, so the loop records the sequence of
sleep durations; the model-call count is recorded alongside the result.
-/

namespace Garyeong

/-- Outcome of one invocation of the external model client: `failure`
models any exception raised by `generate_content` or the `.text`
accessor; `success text` models a reply string being produced. -/
inductive CallResult where
  | failure
  | success (text : String)

/-- Values that `json.loads` can produce, as relevant to this program.
(JSON numbers with a fractional part are not modelled; no claim
concerns them.) -/
inductive PyVal where
  | pyNone
  | pyBool (b : Bool)
  | pyInt (n : Int)
  | pyStr (s : String)
  | pyList (elems : List PyVal)
  | pyDict (fields : List (String × PyVal))

/-- The Python exceptions distinguished by the handlers in
`evaluate_writing`: `except (ValueError, KeyError)` at the conversion
step catches the first two; `TypeError` is only caught by the outer
`except Exception`. -/
inductive PyExn where
  | valueError
  | keyError
  | typeError
deriving DecidableEq

/-- Characters removed by Python's `str.strip()` (ASCII whitespace). -/
def isPySpace (c : Char) : Bool :=
  c = ' ' || c = '\t' || c = '\n' || c = '\r' || c = '\x0b' || c = '\x0c'

/-- `str.strip()` on the character list: drop whitespace from both ends. -/
def stripChars (l : List Char) : List Char :=
  ((l.dropWhile isPySpace).reverse.dropWhile isPySpace).reverse

/-- Python `s.strip()`. -/
def pyStrip (s : String) : String :=
  String.mk (stripChars s.data)

/-- Boolean prefix test on character lists (Python `str.startswith`). -/
def chrStartsWith : List Char → List Char → Bool
  | [], _ => true
  | _ :: _, [] => false
  | a :: xs, b :: ys => a == b && chrStartsWith xs ys

/-- Python `s.startswith(p)`. -/
def pyStartsWith (s p : String) : Bool :=
  chrStartsWith p.data s.data

/-- Boolean substring test (Python `needle in haystack` for strings). -/
def chrSubstr : List Char → List Char → Bool
  | n, [] => n.isEmpty
  | n, c :: rest => chrStartsWith n (c :: rest) || chrSubstr n rest

/-- Python slice `s[a:-b]` (for `a, b > 0`): characters from index `a`
up to index `len(s) - b`, empty when the range is empty or negative. -/
def pySlice (s : String) (a b : Nat) : String :=
  String.mk ((s.data.drop a).take (s.data.length - b - a))

/-- Lines 120-123: remove a markdown code fence by fixed-offset slicing.
`response_text[7:-3]` after a leading ````` ```json ````` tag,
`response_text[3:-3]` after a bare ````` ``` `````, each re-stripped;
otherwise the text is returned unchanged. -/
def stripFence (t : String) : String :=
  if pyStartsWith t "```json" then pyStrip (pySlice t 7 3)
  else if pyStartsWith t "```" then pyStrip (pySlice t 3 3)
  else t

/-- Digits-only numeral reading used by the `int(str)` model. -/
def digitsToNat (cs : List Char) : Option Nat :=
  if cs.isEmpty then none
  else if cs.all Char.isDigit then
    some (cs.foldl (fun a c => a * 10 + (c.toNat - 48)) 0)
  else none

/-- Python `int(s)` on a string: strip whitespace, optional sign, then a
non-empty digit string; otherwise `ValueError`.  (Underscored numerals
are not modelled; no claim concerns them.) -/
def pyIntOfString (s : String) : Option Int :=
  match (pyStrip s).data with
  | '-' :: rest => (digitsToNat rest).map (fun n => -(n : Int))
  | '+' :: rest => (digitsToNat rest).map Int.ofNat
  | t => (digitsToNat t).map Int.ofNat

/-- Python `int(x)` on a decoded value: ints and bools convert, strings
are parsed (`ValueError` on failure), and `None`, lists and dicts raise
`TypeError`. -/
def intOfPy : PyVal → Except PyExn Int
  | .pyInt n => .ok n
  | .pyBool b => .ok (if b then 1 else 0)
  | .pyStr s =>
    match pyIntOfString s with
    | some n => .ok n
    | none => .error .valueError
  | _ => .error .typeError

mutual

/-- Python `repr(x)` for decoded values (strings quoted). -/
def pyRepr : PyVal → String
  | .pyNone => "None"
  | .pyBool b => if b then "True" else "False"
  | .pyInt n => toString n
  | .pyStr s => "\x27" ++ s ++ "\x27"
  | .pyList xs => "[" ++ pyReprElems xs ++ "]"
  | .pyDict fs => "\x7b" ++ pyReprFields fs ++ "\x7d"

/-- Comma-separated `repr`s of list elements. -/
def pyReprElems : List PyVal → String
  | [] => ""
  | [v] => pyRepr v
  | v :: rest => pyRepr v ++ ", " ++ pyReprElems rest

/-- Comma-separated `repr`s of dict entries. -/
def pyReprFields : List (String × PyVal) → String
  | [] => ""
  | [kv] => "\x27" ++ kv.1 ++ "\x27: " ++ pyRepr kv.2
  | kv :: rest => "\x27" ++ kv.1 ++ "\x27: " ++ pyRepr kv.2 ++ ", " ++ pyReprFields rest

end

/-- Python `str(x)`: a string is returned itself, any other value is
rendered as its `repr`.  `str` is total — it never raises. -/
def strOfPy : PyVal → String
  | .pyStr s => s
  | v => pyRepr v

/-- Membership of `key` among a dict's keys. -/
def dictHasKey (fs : List (String × PyVal)) (key : String) : Bool :=
  fs.any (fun kv => kv.1 == key)

/-- First value stored under `key`, if any. -/
def dictGet (fs : List (String × PyVal)) (key : String) : Option PyVal :=
  (fs.find? (fun kv => kv.1 == key)).map (fun kv => kv.2)

/-- Python `key in x`: key membership for dicts, element equality for
lists, substring test for strings; `TypeError` for every other value. -/
def pyContains (key : String) : PyVal → Except PyExn Bool
  | .pyDict fs => .ok (dictHasKey fs key)
  | .pyList xs =>
    .ok (xs.any (fun v => match v with | .pyStr s => s == key | _ => false))
  | .pyStr s => .ok (chrSubstr key.data s.data)
  | _ => .error .typeError

/-- Line 137: `'score' not in result or 'feedback' not in result`, with
Python's short-circuit evaluation.  `.ok true` means a required key is
missing; an error is an uncaught `TypeError` from the `in` operator. -/
def checkMissing (v : PyVal) : Except PyExn Bool :=
  match pyContains "score" v with
  | .error e => .error e
  | .ok hs =>
    if !hs then .ok true
    else
      match pyContains "feedback" v with
      | .error e => .error e
      | .ok hf => .ok (!hf)

/-- Python `x[key]`: dict lookup (`KeyError` when absent); every
non-dict value raises `TypeError` for a string index. -/
def pyGetItem (v : PyVal) (key : String) : Except PyExn PyVal :=
  match v with
  | .pyDict fs =>
    match dictGet fs key with
    | some w => .ok w
    | none => .error .keyError
  | _ => .error .typeError

/-- Lines 145-147: `score = int(result['score']); feedback =
str(result['feedback'])`, propagating the first exception raised. -/
def convertFields (v : PyVal) : Except PyExn (Int × String) :=
  match pyGetItem v "score" with
  | .error e => .error e
  | .ok sv =>
    match intOfPy sv with
    | .error e => .error e
    | .ok score =>
      match pyGetItem v "feedback" with
      | .error e => .error e
      | .ok fv => .ok (score, strOfPy fv)

/-- How one iteration of the retry loop ends, before the
retry-or-return decision: a returned `(score, feedback)` pair, one of
the three handled recoverable failures, or an exception reaching the
outer `except Exception` (model-call failure, or an uncaught
`TypeError` from the response handling). -/
inductive AttemptClass where
  | success (r : Int × String)
  | parseFail
  | schemaFail
  | convFail
  | exn

/-- Lines 106-159: process one model-call outcome.  On a reply: strip,
remove an optional fence, `json.loads` (failure ⇒ `parseFail`), check
the required keys (missing ⇒ `schemaFail`), convert the fields
(`ValueError`/`KeyError` ⇒ `convFail`), clamp the score out of
`[0, 100]` to the nearest bound, and succeed.  Any `TypeError`, like a
failed call, surfaces as `exn`. -/
def attemptClass (loads : String → Option PyVal) : CallResult → AttemptClass
  | .failure => .exn
  | .success raw =>
    let response_text := stripFence (pyStrip raw)
    match loads response_text with
    | none => .parseFail
    | some result =>
      match checkMissing result with
      | .error _ => .exn
      | .ok true => .schemaFail
      | .ok false =>
        match convertFields result with
        | .error .valueError => .convFail
        | .error .keyError => .convFail
        | .error .typeError => .exn
        | .ok (score, feedback) =>
          .success
            (if 0 ≤ score ∧ score ≤ 100 then score
             else max 0 (min 100 score), feedback)

/-- Fixed message returned by the too-short guard (line 78). -/
def msgTooShort : String :=
  "글이 너무 짧아요. 10자 이상 작성 후 \x27평가 받기\x27를 다시 시도해 주세요."

/-- Fixed message for exhausted JSON-parse failures (line 134). -/
def msgParseFail : String :=
  "응답을 처리하는 중에 문제가 발생했어요. 다시 시도해주세요."

/-- Fixed message for exhausted missing-key failures (line 142). -/
def msgSchemaFail : String :=
  "평가 결과를 처리하는 중에 문제가 발생했어요. 다시 시도해주세요."

/-- Fixed message for exhausted conversion failures (line 153). -/
def msgConvFail : String :=
  "점수를 처리하는 중에 문제가 발생했어요. 다시 시도해주세요."

/-- Fixed apology for an exception on the final attempt (line 164). -/
def msgApology : String :=
  "죄송해요. 평가를 완료할 수 없었습니다. 잠시 후 다시 시도해주세요."

/-- Post-loop network-trouble message (line 167). -/
def msgExhausted : String :=
  "여러 번 시도했지만 평가를 완료할 수 없었어요. 네트워크 상태를 확인하고 다시 시도해주세요."

/-- Fixed apology returned by the conversation path (line 216). -/
def msgChatApology : String :=
  "죄송해요. 답변을 생성하는 중에 문제가 발생했어요. 다시 질문해 주세요! 😊"

/-- Lines 104-165: the retry loop, structurally recursive on the number
of remaining iterations (`range(max_retries)` runs `remaining`-many more
times; `remaining = 0` after the last iteration reproduces falling out
of the loop, yielding `none`).  `attempt` is the Python loop index, so
`remaining = 1` means `attempt == max_retries - 1`, the final attempt.
Returns the value returned from inside the loop (if any), the number of
model calls made, and the sequence of `time.sleep` durations. -/
def evalLoop (loads : String → Option PyVal) (calls : Nat → CallResult) :
    Nat → Nat → Nat → List Nat → Option (Int × String) × Nat × List Nat
  | 0, _, callsMade, sleeps => (none, callsMade, sleeps)
  | remaining + 1, attempt, callsMade, sleeps =>
    match attemptClass loads (calls attempt) with
    | .success r => (some r, callsMade + 1, sleeps)
    | .parseFail =>
      if remaining = 0 then (some (50, msgParseFail), callsMade + 1, sleeps)
      else evalLoop loads calls remaining (attempt + 1) (callsMade + 1) (sleeps ++ [1])
    | .schemaFail =>
      if remaining = 0 then (some (50, msgSchemaFail), callsMade + 1, sleeps)
      else evalLoop loads calls remaining (attempt + 1) (callsMade + 1) (sleeps ++ [1])
    | .convFail =>
      if remaining = 0 then (some (50, msgConvFail), callsMade + 1, sleeps)
      else evalLoop loads calls remaining (attempt + 1) (callsMade + 1) (sleeps ++ [1])
    | .exn =>
      if remaining = 0 then (some (30, msgApology), callsMade + 1, sleeps)
      else evalLoop loads calls remaining (attempt + 1) (callsMade + 1) (sleeps ++ [2])

/-- Lines 80-102: the evaluation prompt (rubric, instructions, JSON
output contract, student text). -/
def buildEvalPrompt (grade subject writing_type user_input : String) : String :=
  "\n당신은 \x27" ++ grade ++ "\x27 학생을 가르치는 친절한 AI 글쓰기 선생님입니다. 특히 \x27" ++ subject
    ++ "\x27 과목과 관련된 글쓰기에 대한 조언을 해주는 전문가입니다.\n학생이 제출한 \x27" ++ writing_type
    ++ "\x27 글을 아래의 루브릭에 따라 채점하고, 학생의 학년과 선택한 과목에 맞는 맞춤형 피드백을 제공해주세요.\n\n<루브릭>\n"
    ++ "1. 주제의 명확성 (30점): 글의 중심 생각이나 이야기가 명확하게 드러나는가?\n"
    ++ "2. 내용의 풍부함 (40점): 구체적인 예시, 묘사, 느낌이 잘 표현되어 글이 생생한가?\n"
    ++ "3. 글의 구조 (30점): 서론-본론-결론 혹은 시작-중간-끝의 흐름이 자연스러운가?\n\n<처리 지침>\n"
    ++ "1. 루브릭에 따라 글을 채점하여 총점을 계산합니다.\n"
    ++ "2. 총점이 80점 이상이면, 피드백은 \"정말 훌륭해요! " ++ grade
    ++ " 학생의 눈높이에서 볼 때 이 글은 완성된 것 같아요.\"와 같이 더 이상 수정할 필요가 없다는 최종 칭찬과 격려의 메시지를 담아주세요.\n"
    ++ "3. 총점이 80점 미만이면, 칭찬할 부분과 함께 개선할 점 한 가지를 구체적인 예시를 들어 친절하게 설명해주세요. 특히 \x27"
    ++ subject ++ "\x27 과목의 특성을 고려한 조언을 포함하면 더욱 좋습니다.\n"
    ++ "4. 반드시 아래와 같은 JSON 형식으로만 응답해야 합니다. 다른 설명은 절대 추가하지 마세요.\n\n"
    ++ "\x7b\n  \"score\": <계산된 총점>,\n  \"feedback\": \"<점수에 따른 맞춤형 피드백 내용>\"\n\x7d\n\n<학생의 글>\n"
    ++ user_input ++ "\n"

/-- Lines 75-167: `evaluate_writing`.  The guard rejects an empty or
shorter-than-10-characters (after stripping) input with score 0 and no
model call; otherwise the retry loop runs for `max_retries = 3`
attempts, and the unreachable post-loop return (line 167) supplies
`(30, msgExhausted)` if the loop were ever to complete without
returning.  The result carries the returned pair, the number of model
calls, and the sleep-duration sequence. -/
def evaluate_writing (loads : String → Option PyVal) (calls : String → Nat → CallResult)
    (user_input grade subject writing_type : String) :
    (Int × String) × Nat × List Nat :=
  if user_input = "" ∨ (pyStrip user_input).length < 10 then
    ((0, msgTooShort), 0, [])
  else
    match evalLoop loads (calls (buildEvalPrompt grade subject writing_type user_input)) 3 0 0 [] with
    | (some r, n, sl) => (r, n, sl)
    | (none, n, sl) => ((30, msgExhausted), n, sl)

/-- One entry of `st.session_state.messages`: a role, a content string,
and — for evaluation replies only — a score. -/
structure Msg where
  role : String
  content : String
  score : Option Int

/-- Line 174: `chat_history[-8:] if len(chat_history) > 8 else
chat_history` — at most the last 8 turns, order preserved. -/
def recentMessages (h : List Msg) : List Msg :=
  if h.length > 8 then h.drop (h.length - 8) else h

/-- Line 177: map the stored role to its display label. -/
def roleLabel (role : String) : String :=
  if role = "user" then "학생" else "선생님"

/-- Lines 181-182: truncate a content string to 100 characters,
cutting at 97 and appending `"..."` when longer. -/
def renderContent (c : String) : String :=
  if c.length > 100 then String.mk (c.data.take 97) ++ "..." else c

/-- Lines 184-187: one transcript line, prefixing the score when the
turn carries one. -/
def renderMsg (m : Msg) : String :=
  match m.score with
  | some s =>
    roleLabel m.role ++ ": (점수: " ++ toString s ++ "점) " ++ renderContent m.content ++ "\n"
  | none => roleLabel m.role ++ ": " ++ renderContent m.content ++ "\n"

/-- Lines 172-187: the assembled transcript of the recent turns. -/
def buildHistory (h : List Msg) : String :=
  String.join ((recentMessages h).map renderMsg)

/-- Lines 189-203: the conversation prompt. -/
def buildChatPrompt (grade subject writing_type history_str user_input : String) : String :=
  "\n당신은 \x27" ++ grade ++ "\x27 학생을 가르치는 친절하고 다정한 AI 글쓰기 선생님입니다. \n"
    ++ "학생과 글쓰기에 대한 자유로운 대화를 나눠주세요.\n\x27" ++ subject ++ "\x27 과목과 \x27"
    ++ writing_type ++ "\x27 글쓰기에 대한 대화의 맥락을 유지해주세요.\n\n"
    ++ "학생의 질문에 답하고, 글쓰기 실력을 향상시키는 데 도움이 되는 격려와 조언을 해주세요.\n"
    ++ "답변은 2-3문장의 짧고 친근한 대화체로 해주세요.\n\n<최근 대화 내용>\n" ++ history_str
    ++ "\n\n학생의 새로운 질문: " ++ user_input ++ "\n\n선생님의 답변:\n"

/-- Lines 169-216: `have_conversation`.  One model call on the
assembled prompt; a reply is returned stripped, any failure yields the
fixed apology.  The second component counts model calls (always 1). -/
def have_conversation (call : String → CallResult)
    (user_input grade subject writing_type : String) (chat_history : List Msg) :
    String × Nat :=
  let history_str := buildHistory chat_history
  let prompt := buildChatPrompt grade subject writing_type history_str user_input
  match call prompt with
  | .success t => (pyStrip t, 1)
  | .failure => (msgChatApology, 1)

/-! ### Helper lemmas about the retry loop -/

/-- With at least one iteration left, the retry loop always returns from
inside the loop: the final iteration returns on every branch. -/
theorem evalLoop_isSome (loads : String → Option PyVal) (c : Nat → CallResult) :
    ∀ remaining attempt callsMade sleeps, remaining ≠ 0 →
      ((evalLoop loads c remaining attempt callsMade sleeps).1).isSome = true := by
  intro remaining
  induction remaining with
  | zero => intro _ _ _ h; exact absurd rfl h
  | succ r ih =>
    intro attempt cm sl _
    rcases h : attemptClass loads (c attempt) with r' | _ | _ | _ | _
    · simp [evalLoop, h]
    all_goals
      by_cases hr : r = 0
      · simp [evalLoop, h, hr]
      · simp only [evalLoop, h, if_neg hr]
        exact ih _ _ _ hr

/-- Every value the retry loop can return: a successful attempt's pair,
or one of the four fixed fallback pairs. -/
theorem evalLoop_result_cases (loads : String → Option PyVal) (c : Nat → CallResult) :
    ∀ remaining attempt callsMade sleeps,
      (evalLoop loads c remaining attempt callsMade sleeps).1 = none ∨
      (∃ i r, attemptClass loads (c i) = .success r ∧
        (evalLoop loads c remaining attempt callsMade sleeps).1 = some r) ∨
      (evalLoop loads c remaining attempt callsMade sleeps).1 = some (50, msgParseFail) ∨
      (evalLoop loads c remaining attempt callsMade sleeps).1 = some (50, msgSchemaFail) ∨
      (evalLoop loads c remaining attempt callsMade sleeps).1 = some (50, msgConvFail) ∨
      (evalLoop loads c remaining attempt callsMade sleeps).1 = some (30, msgApology) := by
  intro remaining
  induction remaining with
  | zero => intro _ _ _; left; simp [evalLoop]
  | succ r ih =>
    intro attempt cm sl
    rcases h : attemptClass loads (c attempt) with r' | _ | _ | _ | _
    · right; left
      exact ⟨attempt, r', h, by simp [evalLoop, h]⟩
    all_goals by_cases hr : r = 0
    · right; right; left; simp [evalLoop, h, hr]
    · simpa only [evalLoop, h, if_neg hr] using ih (attempt + 1) (cm + 1) (sl ++ [1])
    · right; right; right; left; simp [evalLoop, h, hr]
    · simpa only [evalLoop, h, if_neg hr] using ih (attempt + 1) (cm + 1) (sl ++ [1])
    · right; right; right; right; left; simp [evalLoop, h, hr]
    · simpa only [evalLoop, h, if_neg hr] using ih (attempt + 1) (cm + 1) (sl ++ [1])
    · right; right; right; right; right; simp [evalLoop, h, hr]
    · simpa only [evalLoop, h, if_neg hr] using ih (attempt + 1) (cm + 1) (sl ++ [2])

/-- The loop observes the call oracle only through `attemptClass`. -/
theorem evalLoop_congr (loads : String → Option PyVal) {c1 c2 : Nat → CallResult}
    (h : ∀ i, attemptClass loads (c1 i) = attemptClass loads (c2 i)) :
    ∀ remaining attempt callsMade sleeps,
      evalLoop loads c1 remaining attempt callsMade sleeps
        = evalLoop loads c2 remaining attempt callsMade sleeps := by
  intro remaining
  induction remaining with
  | zero => intro _ _ _; rfl
  | succ r ih =>
    intro attempt cm sl
    simp only [evalLoop, h attempt]
    rcases attemptClass loads (c2 attempt) with r' | _ | _ | _ | _
    · rfl
    all_goals by_cases hr : r = 0
    · simp [hr]
    · simp only [if_neg hr]; exact ih _ _ _
    · simp [hr]
    · simp only [if_neg hr]; exact ih _ _ _
    · simp [hr]
    · simp only [if_neg hr]; exact ih _ _ _
    · simp [hr]
    · simp only [if_neg hr]; exact ih _ _ _

/-- A key found by `dictGet` is seen by the membership test. -/
theorem dictGet_hasKey {fs : List (String × PyVal)} {k : String} {v : PyVal}
    (h : dictGet fs k = some v) : dictHasKey fs k = true := by
  unfold dictGet at h
  unfold dictHasKey
  rcases hm : fs.find? (fun kv => kv.1 == k) with - | kv
  · rw [hm] at h; cases h
  · have hp := List.find?_some hm
    exact List.any_eq_true.mpr ⟨kv, List.mem_of_find?_eq_some hm, hp⟩

/-! ### Claims -/

/-- C4: for every input text whose stripped length is less than 10
characters, `evaluate_writing` returns score 0 with the fixed
short-input message and makes zero model calls. -/
theorem short_input_guard (loads : String → Option PyVal) (calls : String → Nat → CallResult)
    (user_input grade subject writing_type : String)
    (h : (pyStrip user_input).length < 10) :
    evaluate_writing loads calls user_input grade subject writing_type
      = ((0, msgTooShort), 0, []) := by
  unfold evaluate_writing
  rw [if_pos (Or.inr h)]

/-- Witness for `short_input_guard` at a concrete five-character input. -/
theorem short_input_guard_witness :
    (pyStrip "짧은 글").length < 10 ∧
      evaluate_writing (fun _ => none) (fun _ _ => .failure) "짧은 글" "3-4학년군" "국어" "일기"
        = ((0, msgTooShort), 0, []) :=
  ⟨by decide, short_input_guard _ _ _ _ _ _ (by decide)⟩

/-- C10: the post-loop exhaustion fallback (line 167) is unreachable:
for every call oracle, the three-iteration retry loop started exactly as
`evaluate_writing` starts it returns from inside the loop, so the
post-loop `return` never runs. -/
theorem post_loop_fallback_unreachable (loads : String → Option PyVal)
    (calls : String → Nat → CallResult) (user_input grade subject writing_type : String) :
    ((evalLoop loads (calls (buildEvalPrompt grade subject writing_type user_input))
      3 0 0 []).1).isSome = true :=
  evalLoop_isSome loads _ 3 0 0 [] (by decide)

/-- C7: if every attempt raises a transport/API failure,
`evaluate_writing` returns score 30 with the fixed apology message after
exactly 3 model calls, sleeping 2 seconds between consecutive attempts. -/
theorem all_transport_failures_fallback (loads : String → Option PyVal)
    (calls : String → Nat → CallResult) (user_input grade subject writing_type : String)
    (hg : ¬(user_input = "" ∨ (pyStrip user_input).length < 10))
    (hc : ∀ i, i < 3 →
      calls (buildEvalPrompt grade subject writing_type user_input) i = .failure) :
    evaluate_writing loads calls user_input grade subject writing_type
      = ((30, msgApology), 3, [2, 2]) := by
  have a0 := hc 0 (by decide)
  have a1 := hc 1 (by decide)
  have a2 := hc 2 (by decide)
  unfold evaluate_writing
  rw [if_neg hg]
  simp [evalLoop, a0, a1, a2, attemptClass]

/-- Witness for `all_transport_failures_fallback`: an always-failing
client. -/
theorem all_transport_failures_fallback_witness :
    evaluate_writing (fun _ => none) (fun _ _ => .failure) "0123456789" "3-4학년군" "국어" "일기"
      = ((30, msgApology), 3, [2, 2]) :=
  all_transport_failures_fallback _ _ _ _ _ _ (by decide) (fun _ _ => rfl)

/-- C6: if every attempt yields a reply that does not decode as JSON,
`evaluate_writing` returns score 50 with the fixed processing-problem
message after exactly 3 model calls. -/
theorem all_parse_failures_fallback (loads : String → Option PyVal)
    (calls : String → Nat → CallResult) (user_input grade subject writing_type : String)
    (hg : ¬(user_input = "" ∨ (pyStrip user_input).length < 10))
    (hc : ∀ i, i < 3 → ∃ t,
      calls (buildEvalPrompt grade subject writing_type user_input) i = .success t ∧
      loads (stripFence (pyStrip t)) = none) :
    evaluate_writing loads calls user_input grade subject writing_type
      = ((50, msgParseFail), 3, [1, 1]) := by
  obtain ⟨t0, h0, p0⟩ := hc 0 (by decide)
  obtain ⟨t1, h1, p1⟩ := hc 1 (by decide)
  obtain ⟨t2, h2, p2⟩ := hc 2 (by decide)
  have a0 : attemptClass loads (calls (buildEvalPrompt grade subject writing_type user_input) 0)
      = .parseFail := by rw [h0]; simp [attemptClass, p0]
  have a1 : attemptClass loads (calls (buildEvalPrompt grade subject writing_type user_input) 1)
      = .parseFail := by rw [h1]; simp [attemptClass, p1]
  have a2 : attemptClass loads (calls (buildEvalPrompt grade subject writing_type user_input) 2)
      = .parseFail := by rw [h2]; simp [attemptClass, p2]
  unfold evaluate_writing
  rw [if_neg hg]
  simp [evalLoop, a0, a1, a2]

/-- Witness for `all_parse_failures_fallback`: a client that always
replies with undecodable prose. -/
theorem all_parse_failures_fallback_witness :
    evaluate_writing (fun _ => none) (fun _ _ => .success "정말 훌륭한 글이에요!")
      "0123456789" "3-4학년군" "국어" "일기" = ((50, msgParseFail), 3, [1, 1]) :=
  all_parse_failures_fallback _ _ _ _ _ _ (by decide)
    (fun _ _ => ⟨"정말 훌륭한 글이에요!", rfl, rfl⟩)

/-- C8: `have_conversation` makes exactly one model call; on a client
failure it returns the fixed friendly apology (no retry), and on success
it returns the reply trimmed of surrounding whitespace. -/
theorem conversation_single_call (call : String → CallResult)
    (user_input grade subject writing_type : String) (chat_history : List Msg) :
    (call (buildChatPrompt grade subject writing_type (buildHistory chat_history) user_input)
        = .failure →
      have_conversation call user_input grade subject writing_type chat_history
        = (msgChatApology, 1)) ∧
    (∀ t, call (buildChatPrompt grade subject writing_type (buildHistory chat_history) user_input)
        = .success t →
      have_conversation call user_input grade subject writing_type chat_history
        = (pyStrip t, 1)) := by
  constructor
  · intro h; simp [have_conversation, h]
  · intro t h; simp [have_conversation, h]

/-- Witness for `conversation_single_call`: an always-failing client
yields the apology after its single call. -/
theorem conversation_single_call_witness :
    have_conversation (fun _ => .failure) "글쓰기가 어려워요" "3-4학년군" "국어" "일기" []
      = (msgChatApology, 1) :=
  (conversation_single_call (fun _ => .failure) "글쓰기가 어려워요" "3-4학년군" "국어" "일기" []).1 rfl

/-- C1: both public operations are total.  Totality itself is witnessed
by `evaluate_writing` and `have_conversation` being total functions of
their oracles and inputs; this theorem adds that every result is
deterministic and enumerable — a successful attempt's pair, or one of
the fixed `(score, message)` fallbacks (the post-loop network message
never occurring), and for the conversation path the trimmed reply or
the fixed apology string. -/
theorem operations_total_enumeration (loads : String → Option PyVal)
    (calls : String → Nat → CallResult) (ccall : String → CallResult)
    (user_input grade subject writing_type chat_input : String) (chat_history : List Msg) :
    ((evaluate_writing loads calls user_input grade subject writing_type).1 = (0, msgTooShort) ∨
     (∃ i r, attemptClass loads (calls (buildEvalPrompt grade subject writing_type user_input) i)
        = .success r ∧
        (evaluate_writing loads calls user_input grade subject writing_type).1 = r) ∨
     (evaluate_writing loads calls user_input grade subject writing_type).1 = (50, msgParseFail) ∨
     (evaluate_writing loads calls user_input grade subject writing_type).1 = (50, msgSchemaFail) ∨
     (evaluate_writing loads calls user_input grade subject writing_type).1 = (50, msgConvFail) ∨
     (evaluate_writing loads calls user_input grade subject writing_type).1 = (30, msgApology)) ∧
    ((∃ t, ccall (buildChatPrompt grade subject writing_type (buildHistory chat_history) chat_input)
        = .success t ∧
        (have_conversation ccall chat_input grade subject writing_type chat_history).1
          = pyStrip t) ∨
     (have_conversation ccall chat_input grade subject writing_type chat_history).1
        = msgChatApology) := by
  constructor
  · by_cases hg : user_input = "" ∨ (pyStrip user_input).length < 10
    · left
      unfold evaluate_writing
      rw [if_pos hg]
    · set c := calls (buildEvalPrompt grade subject writing_type user_input) with hc
      have hcase := evalLoop_result_cases loads c 3 0 0 []
      have hsome := evalLoop_isSome loads c 3 0 0 [] (by decide)
      rcases hl : evalLoop loads c 3 0 0 [] with ⟨o, n, sl⟩
      rcases o with - | r
      · rw [hl] at hsome
        simp at hsome
      · have h1 : (evaluate_writing loads calls user_input grade subject writing_type).1 = r := by
          unfold evaluate_writing
          rw [if_neg hg, ← hc, hl]
        rw [hl] at hcase
        rcases hcase with h | ⟨i, r', ha, hr⟩ | h | h | h | h
        · cases h
        · exact Or.inr (Or.inl ⟨i, r', ha, h1.trans (Option.some.inj hr)⟩)
        · exact Or.inr (Or.inr (Or.inl (h1.trans (Option.some.inj h))))
        · exact Or.inr (Or.inr (Or.inr (Or.inl (h1.trans (Option.some.inj h)))))
        · exact Or.inr (Or.inr (Or.inr (Or.inr (Or.inl (h1.trans (Option.some.inj h))))))
        · exact Or.inr (Or.inr (Or.inr (Or.inr (Or.inr (h1.trans (Option.some.inj h))))))
  · rcases h : ccall (buildChatPrompt grade subject writing_type (buildHistory chat_history)
        chat_input) with - | t
    · right
      simp [have_conversation, h]
    · left
      exact ⟨t, rfl, by simp [have_conversation, h]⟩

/-- C5: a first-attempt reply decoding to an object with an integer
`score` and a string `feedback` makes `evaluate_writing` return the
score clamped to `[0, 100]` (to the nearest bound) with the feedback
unchanged, after a single model call; a score already in range is
returned exactly unchanged. -/
theorem success_reply_clamped (loads : String → Option PyVal)
    (calls : String → Nat → CallResult) (user_input grade subject writing_type reply : String)
    (fs : List (String × PyVal)) (score : Int) (feedback : String)
    (hg : ¬(user_input = "" ∨ (pyStrip user_input).length < 10))
    (hc : calls (buildEvalPrompt grade subject writing_type user_input) 0 = .success reply)
    (hl : loads (stripFence (pyStrip reply)) = some (.pyDict fs))
    (hsv : dictGet fs "score" = some (.pyInt score))
    (hfv : dictGet fs "feedback" = some (.pyStr feedback)) :
    evaluate_writing loads calls user_input grade subject writing_type
      = ((max 0 (min 100 score), feedback), 1, []) ∧
    (0 ≤ score → score ≤ 100 →
      evaluate_writing loads calls user_input grade subject writing_type
        = ((score, feedback), 1, [])) := by
  have hks := dictGet_hasKey hsv
  have hkf := dictGet_hasKey hfv
  have hclass : attemptClass loads (calls (buildEvalPrompt grade subject writing_type user_input) 0)
      = .success ((if 0 ≤ score ∧ score ≤ 100 then score else max 0 (min 100 score)), feedback) := by
    rw [hc]
    simp [attemptClass, hl, checkMissing, pyContains, hks, hkf, convertFields, pyGetItem,
      hsv, hfv, intOfPy, strOfPy]
  have hmain : evaluate_writing loads calls user_input grade subject writing_type
      = (((if 0 ≤ score ∧ score ≤ 100 then score else max 0 (min 100 score)), feedback), 1, []) := by
    unfold evaluate_writing
    rw [if_neg hg]
    simp [evalLoop, hclass]
  constructor
  · rw [hmain]
    by_cases h : 0 ≤ score ∧ score ≤ 100
    · have hm : max 0 (min 100 score) = score := by omega
      rw [if_pos h, hm]
    · rw [if_neg h]
  · intro h0 h100
    rw [hmain, if_pos ⟨h0, h100⟩]

/-- Reply used by the clamping witness: an out-of-range score of 150. -/
def clampReply : String := "\x7b\"score\": 150, \"feedback\": \"정말 훌륭해요!\"\x7d"

/-- `json.loads` oracle consistent with the clamping witness reply. -/
def clampLoads : String → Option PyVal := fun t =>
  if t = clampReply then
    some (.pyDict [("score", .pyInt 150), ("feedback", .pyStr "정말 훌륭해요!")])
  else none

/-- Witness for `success_reply_clamped`: a score of 150 is pulled down
to 100 while the feedback survives unchanged. -/
theorem success_reply_clamped_witness :
    evaluate_writing clampLoads (fun _ _ => .success clampReply)
      "0123456789" "3-4학년군" "국어" "일기"
      = ((max 0 (min 100 150), "정말 훌륭해요!"), 1, []) :=
  (success_reply_clamped clampLoads (fun _ _ => .success clampReply)
    "0123456789" "3-4학년군" "국어" "일기" clampReply
    [("score", .pyInt 150), ("feedback", .pyStr "정말 훌륭해요!")] 150 "정말 훌륭해요!"
    (by decide) rfl rfl rfl rfl).1

/-- Reply whose decoded `score` is `null`. -/
def nullScoreReply : String := "\x7b\"score\": null, \"feedback\": \"좋아요\"\x7d"

/-- `json.loads` oracle consistent with `nullScoreReply`. -/
def nullScoreLoads : String → Option PyVal := fun t =>
  if t = nullScoreReply then
    some (.pyDict [("score", .pyNone), ("feedback", .pyStr "좋아요")])
  else none

/-- C2 counterexample: the reply `{"score": null, "feedback": ...}`
decodes as a structured object whose `score` fails integer conversion,
yet `evaluate_writing` returns score 30 with the generic apology — not
the claimed score-50 parse-style fallback.  In the source, `int(None)`
raises `TypeError`, which `except (ValueError, KeyError)` (line 148)
does not catch; the outer `except Exception` (line 161) handles it like
a transport failure. -/
theorem null_score_fallback_counterexample :
    evaluate_writing nullScoreLoads (fun _ _ => .success nullScoreReply)
        "0123456789" "3-4학년군" "국어" "일기" = ((30, msgApology), 3, [2, 2]) ∧
      (evaluate_writing nullScoreLoads (fun _ _ => .success nullScoreReply)
        "0123456789" "3-4학년군" "국어" "일기").1.1 ≠ 50 :=
  ⟨rfl, by decide⟩

/-- C2 (amended): for replies decoding to a structured object, a missing
`score` or `feedback` key retries and ends at score 50 with the fixed
missing-field message, and a `score` whose integer conversion raises
`ValueError` (an unparseable string) retries and ends at score 50 with
the fixed conversion message — each message a fixed score-50 message,
though different from the parse-failure message; but a `score` whose
conversion raises `TypeError` instead (`null`, list or object values)
escapes to the generic exception handler and ends at score 30 with the
apology message. -/
theorem schema_and_conversion_fallback (loads : String → Option PyVal)
    (calls : String → Nat → CallResult) (user_input grade subject writing_type reply : String)
    (fs : List (String × PyVal))
    (hg : ¬(user_input = "" ∨ (pyStrip user_input).length < 10))
    (hc : ∀ i, i < 3 →
      calls (buildEvalPrompt grade subject writing_type user_input) i = .success reply)
    (hl : loads (stripFence (pyStrip reply)) = some (.pyDict fs)) :
    ((dictHasKey fs "score" = false ∨ dictHasKey fs "feedback" = false) →
      evaluate_writing loads calls user_input grade subject writing_type
        = ((50, msgSchemaFail), 3, [1, 1])) ∧
    (∀ sv, dictGet fs "score" = some sv → dictHasKey fs "feedback" = true →
      intOfPy sv = .error .valueError →
      evaluate_writing loads calls user_input grade subject writing_type
        = ((50, msgConvFail), 3, [1, 1])) ∧
    (∀ sv, dictGet fs "score" = some sv → dictHasKey fs "feedback" = true →
      intOfPy sv = .error .typeError →
      evaluate_writing loads calls user_input grade subject writing_type
        = ((30, msgApology), 3, [2, 2])) := by
  have h0 := hc 0 (by decide)
  have h1 := hc 1 (by decide)
  have h2 := hc 2 (by decide)
  refine ⟨fun hmiss => ?_, fun sv hsv hkf hie => ?_, fun sv hsv hkf hie => ?_⟩
  · have hone : attemptClass loads (.success reply) = .schemaFail := by
      cases hs : dictHasKey fs "score" with
      | false => simp [attemptClass, hl, checkMissing, pyContains, hs]
      | true =>
        rcases hmiss with hm | hm
        · rw [hs] at hm
          cases hm
        · simp [attemptClass, hl, checkMissing, pyContains, hs, hm]
    unfold evaluate_writing
    rw [if_neg hg]
    simp [evalLoop, h0, h1, h2, hone]
  · have hks := dictGet_hasKey hsv
    have hone : attemptClass loads (.success reply) = .convFail := by
      simp [attemptClass, hl, checkMissing, pyContains, hks, hkf, convertFields, pyGetItem,
        hsv, hie]
    unfold evaluate_writing
    rw [if_neg hg]
    simp [evalLoop, h0, h1, h2, hone]
  · have hks := dictGet_hasKey hsv
    have hone : attemptClass loads (.success reply) = .exn := by
      simp [attemptClass, hl, checkMissing, pyContains, hks, hkf, convertFields, pyGetItem,
        hsv, hie]
    unfold evaluate_writing
    rw [if_neg hg]
    simp [evalLoop, h0, h1, h2, hone]

/-- Reply whose decoded object lacks the `score` key. -/
def missingScoreReply : String := "\x7b\"feedback\": \"좋은 글이에요\"\x7d"

/-- `json.loads` oracle consistent with `missingScoreReply`. -/
def missingScoreLoads : String → Option PyVal := fun t =>
  if t = missingScoreReply then some (.pyDict [("feedback", .pyStr "좋은 글이에요")]) else none

/-- Witness for `schema_and_conversion_fallback`: an object missing
`score` ends after three calls at score 50 with the missing-field
message. -/
theorem schema_and_conversion_fallback_witness :
    evaluate_writing missingScoreLoads (fun _ _ => .success missingScoreReply)
      "0123456789" "3-4학년군" "국어" "일기" = ((50, msgSchemaFail), 3, [1, 1]) :=
  (schema_and_conversion_fallback missingScoreLoads (fun _ _ => .success missingScoreReply)
    "0123456789" "3-4학년군" "국어" "일기" missingScoreReply
    [("feedback", .pyStr "좋은 글이에요")] (by decide) (fun _ _ => rfl) rfl).1 (Or.inl rfl)

/-! ### String lemmas for the fence-stripping analysis -/

/-- Rebuilding a string from its characters is the identity. -/
theorem mk_data (s : String) : String.mk s.data = s := rfl

/-- Stripping leaves a list alone when its two ends are non-space. -/
theorem stripChars_of_ends (a b : Char) (m : List Char)
    (ha : isPySpace a = false) (hb : isPySpace b = false) :
    stripChars (a :: (m ++ [b])) = a :: (m ++ [b]) := by
  unfold stripChars
  rw [List.dropWhile_cons]
  simp only [ha, Bool.false_eq_true, if_false]
  rw [show (a :: (m ++ [b])).reverse = b :: (m.reverse ++ [a]) by simp]
  rw [List.dropWhile_cons]
  simp [hb]

/-- Characters of a tagged-fence reply, ends exposed. -/
theorem data_tagged (inner : String) :
    ("```json" ++ inner ++ "```").data
      = '`' :: (('`' :: '`' :: 'j' :: 's' :: 'o' :: 'n' :: (inner.data ++ ['`', '`'])) ++ ['`']) := by
  simp [String.data_append, List.append_assoc]

/-- Characters of a tagged-fence reply, head run exposed. -/
theorem data_tagged' (inner : String) :
    ("```json" ++ inner ++ "```").data
      = '`' :: '`' :: '`' :: 'j' :: 's' :: 'o' :: 'n' :: (inner.data ++ ['`', '`', '`']) := by
  simp [String.data_append]

/-- Characters of a bare-fence reply, ends exposed. -/
theorem data_plain (inner : String) :
    ("```" ++ inner ++ "```").data
      = '`' :: (('`' :: '`' :: (inner.data ++ ['`', '`'])) ++ ['`']) := by
  simp [String.data_append, List.append_assoc]

/-- Characters of a bare-fence reply, head run exposed. -/
theorem data_plain' (inner : String) :
    ("```" ++ inner ++ "```").data
      = '`' :: '`' :: '`' :: (inner.data ++ ['`', '`', '`']) := by
  simp [String.data_append]

/-- A tagged-fence reply is unchanged by `strip()`: backticks at both
ends are not whitespace. -/
theorem pyStrip_tagged (inner : String) :
    pyStrip ("```json" ++ inner ++ "```") = "```json" ++ inner ++ "```" := by
  have h := data_tagged inner
  unfold pyStrip
  rw [h, stripChars_of_ends _ _ _ (by decide) (by decide), ← h, mk_data]

/-- A bare-fence reply is unchanged by `strip()`. -/
theorem pyStrip_plain (inner : String) :
    pyStrip ("```" ++ inner ++ "```") = "```" ++ inner ++ "```" := by
  have h := data_plain inner
  unfold pyStrip
  rw [h, stripChars_of_ends _ _ _ (by decide) (by decide), ← h, mk_data]

/-- The `[7:-3]` slice recovers the inner content of a tagged fence. -/
theorem pySlice_tagged (inner : String) :
    pySlice ("```json" ++ inner ++ "```") 7 3 = inner := by
  unfold pySlice
  rw [data_tagged']
  have hlen : ('`' :: '`' :: '`' :: 'j' :: 's' :: 'o' :: 'n'
      :: (inner.data ++ ['`', '`', '`'])).length - 3 - 7 = inner.data.length := by
    simp
  rw [hlen]
  show String.mk ((inner.data ++ ['`', '`', '`']).take inner.data.length) = inner
  rw [List.take_left]

/-- The `[3:-3]` slice recovers the inner content of a bare fence. -/
theorem pySlice_plain (inner : String) :
    pySlice ("```" ++ inner ++ "```") 3 3 = inner := by
  unfold pySlice
  rw [data_plain']
  have hlen : ('`' :: '`' :: '`'
      :: (inner.data ++ ['`', '`', '`'])).length - 3 - 3 = inner.data.length := by
    simp
  rw [hlen]
  show String.mk ((inner.data ++ ['`', '`', '`']).take inner.data.length) = inner
  rw [List.take_left]

/-- A tagged-fence reply passes the ````` ```json ````` test. -/
theorem tagged_startsWith (inner : String) :
    pyStartsWith ("```json" ++ inner ++ "```") "```json" = true := by
  unfold pyStartsWith
  rw [data_tagged']
  simp [chrStartsWith]

/-- A bare-fence reply passes the ````` ``` ````` test. -/
theorem plain_startsWith (inner : String) :
    pyStartsWith ("```" ++ inner ++ "```") "```" = true := by
  unfold pyStartsWith
  rw [data_plain']
  simp [chrStartsWith]

/-- Appending the closing fence cannot create a `"json"` head: the tag
would need a backtick among its letters. -/
theorem chrStartsWith_json_append (l : List Char)
    (h : chrStartsWith "json".data l = false) :
    chrStartsWith "json".data (l ++ ['`', '`', '`']) = false := by
  rcases l with - | ⟨a, l1⟩
  · decide
  rcases l1 with - | ⟨b, l2⟩
  · simp [chrStartsWith, show ('s' == '`') = false from by decide]
  rcases l2 with - | ⟨c, l3⟩
  · simp [chrStartsWith, show ('o' == '`') = false from by decide]
  rcases l3 with - | ⟨d, l4⟩
  · simp [chrStartsWith, show ('n' == '`') = false from by decide]
  · simp only [chrStartsWith, List.cons_append] at h ⊢
    simpa using h

/-- A bare fence whose inner content does not begin with `"json"` fails
the ````` ```json ````` test. -/
theorem plain_not_tagged (inner : String)
    (h : chrStartsWith "json".data inner.data = false) :
    pyStartsWith ("```" ++ inner ++ "```") "```json" = false := by
  unfold pyStartsWith
  rw [data_plain']
  show chrStartsWith ('`' :: '`' :: '`' :: 'j' :: 's' :: 'o' :: 'n' :: [])
    ('`' :: '`' :: '`' :: (inner.data ++ ['`', '`', '`'])) = false
  simp only [chrStartsWith, beq_self_eq_true, Bool.true_and]
  exact chrStartsWith_json_append inner.data h

/-- Passing the ````` ```json ````` test entails passing the
````` ``` ````` test. -/
theorem chrStartsWith_tag_of_long (l : List Char)
    (h : chrStartsWith "```json".data l = true) :
    chrStartsWith "```".data l = true := by
  rcases l with - | ⟨a, l1⟩
  · simp [chrStartsWith] at h
  rcases l1 with - | ⟨b, l2⟩
  · simp [chrStartsWith] at h
  rcases l2 with - | ⟨c, l3⟩
  · simp [chrStartsWith] at h
  · simp only [chrStartsWith] at h ⊢
    simp at h ⊢
    exact ⟨h.1, h.2.1, h.2.2.1⟩

/-- A text that does not begin with a triple backtick is unchanged by
the fence-removal step. -/
theorem stripFence_of_not_fenced (t : String)
    (h : chrStartsWith "```".data t.data = false) :
    stripFence t = t := by
  have h3 : pyStartsWith t "```" = false := h
  have h7 : pyStartsWith t "```json" = false := by
    cases h7 : pyStartsWith t "```json" with
    | false => rfl
    | true =>
      have := chrStartsWith_tag_of_long t.data h7
      rw [h] at this
      cases this
  unfold stripFence
  rw [h7, h3]
  simp

/-- The full normalisation of a tagged-fence reply is the stripped
inner content. -/
theorem normalize_tagged (inner : String) :
    stripFence (pyStrip ("```json" ++ inner ++ "```")) = pyStrip inner := by
  rw [pyStrip_tagged]
  unfold stripFence
  rw [tagged_startsWith]
  simp [pySlice_tagged]

/-- The full normalisation of a bare-fence reply whose inner content
does not begin with `"json"` is the stripped inner content. -/
theorem normalize_plain (inner : String)
    (h : chrStartsWith "json".data inner.data = false) :
    stripFence (pyStrip ("```" ++ inner ++ "```")) = pyStrip inner := by
  rw [pyStrip_plain]
  unfold stripFence
  rw [plain_not_tagged inner h, plain_startsWith]
  simp [pySlice_plain]

/-- The attempt classification depends on a reply only through its
normalised text. -/
theorem attemptClass_normalized (loads : String → Option PyVal) {r1 r2 : String}
    (h : stripFence (pyStrip r1) = stripFence (pyStrip r2)) :
    attemptClass loads (.success r1) = attemptClass loads (.success r2) := by
  simp only [attemptClass]
  rw [h]

/-- Inner JSON text used by the fence counterexample. -/
def fenceJsonText : String := "\x7b\"score\": 5, \"feedback\": \"좋은 글이에요\"\x7d"

/-- Inner content beginning with the four letters `json`. -/
def fenceInner : String := "json" ++ fenceJsonText

/-- `json.loads` oracle consistent with the fence counterexample: the
JSON object text decodes, the `json`-prefixed text does not. -/
def fenceLoads : String → Option PyVal := fun t =>
  if t = fenceJsonText then
    some (.pyDict [("score", .pyInt 5), ("feedback", .pyStr "좋은 글이에요")])
  else none

/-- C3 counterexample: a reply wrapped in a bare (untagged) fence whose
inner content begins with the letters `json` does NOT evaluate like the
unwrapped inner content.  The `startswith('```json')` branch fires and
the `[7:-3]` slice eats the four letters, so the fenced reply decodes
and scores while the unwrapped reply is not valid JSON and falls back
to the score-50 parse failure. -/
theorem fence_json_tag_counterexample :
    evaluate_writing fenceLoads (fun _ _ => .success ("```" ++ fenceInner ++ "```"))
        "0123456789" "3-4학년군" "국어" "일기" = ((5, "좋은 글이에요"), 1, []) ∧
      evaluate_writing fenceLoads (fun _ _ => .success fenceInner)
        "0123456789" "3-4학년군" "국어" "일기" = ((50, msgParseFail), 3, [1, 1]) ∧
      ((5 : Int), "좋은 글이에요") ≠ ((50 : Int), msgParseFail) :=
  ⟨rfl, rfl, by decide⟩

/-- C3 (amended): a fenced reply evaluates exactly like the unwrapped
reply with the same inner content, provided the stripped inner content
does not itself begin with a triple backtick and — for a fence without
a language tag — the inner content does not begin with the letters
`json`.  (The counterexample shows the `json`-prefix proviso is
necessary; the fixed-offset slicing cannot tell such a bare fence from
a tagged one.) -/
theorem fence_strip_equivalence (loads : String → Option PyVal)
    (user_input grade subject writing_type inner : String)
    (h1 : chrStartsWith "```".data (pyStrip inner).data = false) :
    evaluate_writing loads (fun _ _ => .success ("```json" ++ inner ++ "```"))
        user_input grade subject writing_type
      = evaluate_writing loads (fun _ _ => .success inner)
        user_input grade subject writing_type ∧
    (chrStartsWith "json".data inner.data = false →
      evaluate_writing loads (fun _ _ => .success ("```" ++ inner ++ "```"))
          user_input grade subject writing_type
        = evaluate_writing loads (fun _ _ => .success inner)
          user_input grade subject writing_type) := by
  have hbare : stripFence (pyStrip inner) = pyStrip inner := stripFence_of_not_fenced _ h1
  constructor
  · by_cases hg : user_input = "" ∨ (pyStrip user_input).length < 10
    · unfold evaluate_writing
      rw [if_pos hg, if_pos hg]
    · have hloop :
          evalLoop loads (fun _ => CallResult.success ("```json" ++ inner ++ "```")) 3 0 0 []
            = evalLoop loads (fun _ => CallResult.success inner) 3 0 0 [] :=
        evalLoop_congr loads
          (fun _ => attemptClass_normalized loads (by rw [normalize_tagged, hbare])) 3 0 0 []
      simp only [evaluate_writing, if_neg hg]
      rw [hloop]
  · intro h2
    by_cases hg : user_input = "" ∨ (pyStrip user_input).length < 10
    · unfold evaluate_writing
      rw [if_pos hg, if_pos hg]
    · have hloop :
          evalLoop loads (fun _ => CallResult.success ("```" ++ inner ++ "```")) 3 0 0 []
            = evalLoop loads (fun _ => CallResult.success inner) 3 0 0 [] :=
        evalLoop_congr loads
          (fun _ => attemptClass_normalized loads (by rw [normalize_plain inner h2, hbare])) 3 0 0 []
      simp only [evaluate_writing, if_neg hg]
      rw [hloop]

/-- Witness for `fence_strip_equivalence`: a tagged fence around plain
prose evaluates like the prose itself. -/
theorem fence_strip_equivalence_witness :
    chrStartsWith "```".data (pyStrip "hello world").data = false ∧
      evaluate_writing (fun _ => none) (fun _ _ => .success ("```json" ++ "hello world" ++ "```"))
          "0123456789" "3-4학년군" "국어" "일기"
        = evaluate_writing (fun _ => none) (fun _ _ => .success "hello world")
          "0123456789" "3-4학년군" "국어" "일기" :=
  ⟨by decide,
    (fence_strip_equivalence (fun _ => none) "0123456789" "3-4학년군" "국어" "일기" "hello world"
      (by decide)).1⟩

/-- C9: the Conversation Assembler keeps at most the last 8 turns in
their original (newest-last) order, renders every content in at most
100 characters — exactly the first 97 plus an ellipsis when the
original exceeds 100, unchanged otherwise — and prefixes the score in
the rendered line whenever the turn carries one. -/
theorem conversation_assembler_spec (h : List Msg) (m : Msg) (sc : Int) (c : String) :
    (recentMessages h).length = min h.length 8 ∧
    (∃ pre, pre ++ recentMessages h = h) ∧
    buildHistory h = String.join ((recentMessages h).map renderMsg) ∧
    (renderContent c).length ≤ 100 ∧
    (100 < c.length →
      renderContent c = String.mk (c.data.take 97) ++ "..." ∧ (renderContent c).length = 100) ∧
    (c.length ≤ 100 → renderContent c = c) ∧
    (m.score = some sc →
      renderMsg m = roleLabel m.role ++ ": (점수: " ++ toString sc ++ "점) "
        ++ renderContent m.content ++ "\n") ∧
    (m.score = none →
      renderMsg m = roleLabel m.role ++ ": " ++ renderContent m.content ++ "\n") := by
  have hmk : ∀ (l : List Char), (String.mk l).length = l.length := fun _ => rfl
  have hdot : ("..." : String).length = 3 := rfl
  have hdata : c.data.length = c.length := rfl
  have hlen100 : 100 < c.length → (renderContent c).length = 100 := by
    intro hc
    unfold renderContent
    rw [if_pos hc, String.length_append, hmk, List.length_take]
    omega
  refine ⟨?_, ?_, rfl, ?_, fun hc => ⟨by unfold renderContent; rw [if_pos hc], hlen100 hc⟩,
    ?_, ?_, ?_⟩
  · unfold recentMessages
    by_cases h8 : h.length > 8
    · rw [if_pos h8]
      rw [List.length_drop]
      omega
    · rw [if_neg h8]
      omega
  · unfold recentMessages
    by_cases h8 : h.length > 8
    · rw [if_pos h8]
      exact ⟨h.take (h.length - 8), List.take_append_drop _ _⟩
    · rw [if_neg h8]
      exact ⟨[], rfl⟩
  · by_cases hc : c.length > 100
    · rw [hlen100 hc]
    · unfold renderContent
      rw [if_neg hc]
      omega
  · intro hc
    unfold renderContent
    rw [if_neg (by omega)]
  · intro hs
    simp [renderMsg, hs]
  · intro hs
    simp [renderMsg, hs]

/-- A ten-turn history, mirroring the spec's worked example. -/
def sampleTurns : List Msg :=
  [⟨"user", "첫 번째 글", none⟩, ⟨"assistant", "피드백 하나", some 75⟩,
   ⟨"user", "두 번째 글", none⟩, ⟨"assistant", "피드백 둘", some 80⟩,
   ⟨"user", "세 번째 글", none⟩, ⟨"assistant", "피드백 셋", none⟩,
   ⟨"user", "네 번째 글", none⟩, ⟨"assistant", "피드백 넷", some 90⟩,
   ⟨"user", "다섯 번째 글", none⟩, ⟨"assistant", "피드백 다섯", none⟩]

/-- A 101-character content string. -/
def longContent : String := String.mk (List.replicate 101 'a')

/-- Witness for `conversation_assembler_spec`: ten turns keep exactly
eight, and a 101-character content renders as 97 characters plus the
ellipsis. -/
theorem conversation_assembler_spec_witness :
    (recentMessages sampleTurns).length = min sampleTurns.length 8 ∧
      100 < longContent.length ∧
      renderContent longContent = String.mk (longContent.data.take 97) ++ "..." ∧
      (renderContent longContent).length = 100 :=
  ⟨(conversation_assembler_spec sampleTurns ⟨"user", "안녕", none⟩ 0 longContent).1,
    by decide,
    ((conversation_assembler_spec sampleTurns ⟨"user", "안녕", none⟩ 0 longContent).2.2.2.2.1
      (by decide)).1,
    ((conversation_assembler_spec sampleTurns ⟨"user", "안녕", none⟩ 0 longContent).2.2.2.2.1
      (by decide)).2⟩

end Garyeong
